import Mathlib

/-
Verification of the documentation-site configuration module
`docs/source/conf.py` against its specification.

The module is a flat sequence of top-level assignments of literals to
names.  We embed a small semantics of such modules: values are the
Python values that occur (strings, `None`, lists, dicts), right-hand
sides are literals or reads from an external world, and statements are
name bindings or deletions.  Evaluating a module folds its statements
over an environment of bindings.  `conf.py` is transliterated
statement by statement, in source order, and the claims of the
specification are proved about its evaluation.
-/

namespace Conf

/-- A Python value as it occurs in the configuration module: a string,
`None`, a list of values, or a dict mapping string keys to values. -/
inductive Value where
  | vstr : String → Value
  | vnone : Value
  | vlist : List Value → Value
  | vdict : List (String × Value) → Value

/-- The external world a module evaluation could read from (environment
variables, command-line state, files), modelled as a map from keys to
values. -/
abbrev World : Type := String → Value

/-- A right-hand side of a module-level assignment: a literal value, or
a read of a key from the external world. -/
inductive Expr where
  | lit : Value → Expr
  | extRead : String → Expr

/-- Evaluate an expression against a world. -/
def Expr.eval (w : World) : Expr → Value
  | .lit v => v
  | .extRead k => w k

/-- True when the expression is a literal, i.e. reads nothing
external. -/
def Expr.isLit : Expr → Bool
  | .lit _ => true
  | .extRead _ => false

/-- A module-level statement: binding a name to the value of an
expression, or deleting a name. -/
inductive Stmt where
  | assign : String → Expr → Stmt
  | del : String → Stmt

/-- A module environment: bindings from names to values, most recent
binding first. -/
abbrev Env : Type := List (String × Value)

/-- Execute one statement on the environment: an assignment replaces
any previous binding of the name, a deletion removes it. -/
def Stmt.exec (w : World) (env : Env) : Stmt → Env
  | .assign n e => (n, e.eval w) :: env.filter (fun p => p.1 != n)
  | .del n => env.filter (fun p => p.1 != n)

/-- True when the statement reads nothing from the external world. -/
def Stmt.noExtRead : Stmt → Bool
  | .assign _ e => e.isLit
  | .del _ => true

/-- Evaluate a module (its list of statements, in source order) from
the empty environment. -/
def evalModule (w : World) (stmts : List Stmt) : Env :=
  stmts.foldl (fun env s => Stmt.exec w env s) []

/-- Look up the current value bound to a name, if any. -/
def lookupVar (env : Env) (k : String) : Option Value :=
  (env.find? (fun p => p.1 == k)).map (fun p => p.2)

/-- True when `k` is bound in `env` to a value satisfying `p`. -/
def boundWith (env : Env) (k : String) (p : Value → Bool) : Bool :=
  match lookupVar env k with
  | some v => p v
  | none => false

/-- True when the statement assigns to the name `k`. -/
def assignsTo (k : String) : Stmt → Bool
  | .assign n _ => n == k
  | .del _ => false

/-- True when the statement deletes the name `k`. -/
def deletesVar (k : String) : Stmt → Bool
  | .del n => n == k
  | .assign _ _ => false

/-- The expression assigned to `k` by the first assignment to `k` in
the statement list, if any. -/
def assignedExpr (stmts : List Stmt) (k : String) : Option Expr :=
  (stmts.find? (assignsTo k)).bind fun s =>
    match s with
    | .assign _ e => some e
    | .del _ => none

/-- The statements of `docs/source/conf.py`, transliterated in source
order.  Every right-hand side in the file is a literal. -/
def confStmts : List Stmt :=
  [ .assign "project" (.lit (.vstr "Multi-Stage Verification")),
    .assign "author" (.lit (.vstr "Gus Smith")),
    .assign "copyright" (.lit (.vstr "")),
    .assign "templates_path" (.lit (.vlist [.vstr "_templates"])),
    .assign "html_theme" (.lit (.vstr "furo")),
    .assign "html_static_path" (.lit (.vlist [.vstr "_static", .vstr "media"])),
    .assign "html_logo" (.lit .vnone),
    .assign "html_favicon" (.lit .vnone),
    .assign "html_css_files" (.lit (.vlist [])),
    .assign "pygments_style" (.lit (.vstr "colorful")),
    .assign "highlight_language" (.lit (.vstr "text")),
    .assign "html_theme_options" (.lit (.vdict [])),
    .assign "extensions" (.lit (.vlist [.vstr "sphinx.ext.autosectionlabel"])) ]

/-- Modelled from the spec: the second of the two near-identical
configuration modules is not present under the repository sources;
the spec describes the repository as "two copies of a flat key-value
configuration module", so the second module is modelled as carrying
the same thirteen bindings, written out independently. -/
def conf2Stmts : List Stmt :=
  [ .assign "project" (.lit (.vstr "Multi-Stage Verification")),
    .assign "author" (.lit (.vstr "Gus Smith")),
    .assign "copyright" (.lit (.vstr "")),
    .assign "templates_path" (.lit (.vlist [.vstr "_templates"])),
    .assign "html_theme" (.lit (.vstr "furo")),
    .assign "html_static_path" (.lit (.vlist [.vstr "_static", .vstr "media"])),
    .assign "html_logo" (.lit .vnone),
    .assign "html_favicon" (.lit .vnone),
    .assign "html_css_files" (.lit (.vlist [])),
    .assign "pygments_style" (.lit (.vstr "colorful")),
    .assign "highlight_language" (.lit (.vstr "text")),
    .assign "html_theme_options" (.lit (.vdict [])),
    .assign "extensions" (.lit (.vlist [.vstr "sphinx.ext.autosectionlabel"])) ]

/-- The thirteen configuration keys of the external interface. -/
def confKeys : List String :=
  [ "project", "author", "copyright", "templates_path", "html_theme",
    "html_static_path", "html_logo", "html_favicon", "html_css_files",
    "pygments_style", "highlight_language", "html_theme_options",
    "extensions" ]

/-- True when the value is a string. -/
def Value.isStr : Value → Bool
  | .vstr _ => true
  | _ => false

/-- True when the value is a list all of whose elements are strings. -/
def Value.isStrList : Value → Bool
  | .vlist vs => vs.all Value.isStr
  | _ => false

/-- True when the value is a string or `None`. -/
def Value.isStrOrNone : Value → Bool
  | .vstr _ => true
  | .vnone => true
  | _ => false

/-- True when the value is a dict. -/
def Value.isDict : Value → Bool
  | .vdict _ => true
  | _ => false

/-- The number of elements of the list bound to `extensions`, if
`extensions` is bound to a list. -/
def extCount (env : Env) : Option Nat :=
  match lookupVar env "extensions" with
  | some (.vlist l) => some l.length
  | _ => none

/-- The key `k` is assigned exactly once by `confStmts`, never deleted,
and its final value is the evaluation of the single expression assigned
to it. -/
def onceBound (w : World) (k : String) : Prop :=
  (confStmts.filter (assignsTo k)).length = 1 ∧
  (confStmts.filter (deletesVar k)).length = 0 ∧
  lookupVar (evalModule w confStmts) k =
    (assignedExpr confStmts k).map (Expr.eval w)

/-- A list of statements none of which reads the external world
evaluates identically under any two worlds, from any environment. -/
theorem foldExec_world_indep (stmts : List Stmt)
    (h : ∀ s ∈ stmts, s.noExtRead = true) (w1 w2 : World) (env : Env) :
    stmts.foldl (fun e s => Stmt.exec w1 e s) env =
      stmts.foldl (fun e s => Stmt.exec w2 e s) env := by
  induction stmts generalizing env with
  | nil => rfl
  | cons s rest ih =>
    have hs : s.noExtRead = true := h s (List.mem_cons_self s rest)
    have hrest : ∀ t ∈ rest, t.noExtRead = true :=
      fun t ht => h t (List.mem_cons_of_mem s ht)
    simp only [List.foldl_cons]
    have hstep : Stmt.exec w1 env s = Stmt.exec w2 env s := by
      cases s with
      | assign n e =>
        cases e with
        | lit v => rfl
        | extRead k => simp [Stmt.noExtRead, Expr.isLit] at hs
      | del n => rfl
    rw [hstep]
    exact ih hrest (Stmt.exec w2 env s)

/-- C1: for every key of the external-interface set, evaluating the
module binds the key to a value of the expected type: strings for
`project`, `author`, `copyright`, `html_theme`, `pygments_style` and
`highlight_language`; lists of strings for `templates_path`,
`html_static_path`, `html_css_files` and `extensions`; string-or-None
for `html_logo` and `html_favicon`; a mapping for
`html_theme_options`. -/
theorem conf_interface_types (w : World) :
    boundWith (evalModule w confStmts) "project" Value.isStr = true ∧
    boundWith (evalModule w confStmts) "author" Value.isStr = true ∧
    boundWith (evalModule w confStmts) "copyright" Value.isStr = true ∧
    boundWith (evalModule w confStmts) "html_theme" Value.isStr = true ∧
    boundWith (evalModule w confStmts) "pygments_style" Value.isStr = true ∧
    boundWith (evalModule w confStmts) "highlight_language" Value.isStr = true ∧
    boundWith (evalModule w confStmts) "templates_path" Value.isStrList = true ∧
    boundWith (evalModule w confStmts) "html_static_path" Value.isStrList = true ∧
    boundWith (evalModule w confStmts) "html_css_files" Value.isStrList = true ∧
    boundWith (evalModule w confStmts) "extensions" Value.isStrList = true ∧
    boundWith (evalModule w confStmts) "html_logo" Value.isStrOrNone = true ∧
    boundWith (evalModule w confStmts) "html_favicon" Value.isStrOrNone = true ∧
    boundWith (evalModule w confStmts) "html_theme_options" Value.isDict = true :=
  ⟨rfl, rfl, rfl, rfl, rfl, rfl, rfl, rfl, rfl, rfl, rfl, rfl, rfl⟩

/-- C2: evaluating the module sets a project title, an author, a theme,
static asset paths, and an extensions list containing exactly one
extension identifier. -/
theorem conf_core_settings (w : World) :
    (lookupVar (evalModule w confStmts) "project").isSome = true ∧
    (lookupVar (evalModule w confStmts) "author").isSome = true ∧
    (lookupVar (evalModule w confStmts) "html_theme").isSome = true ∧
    (lookupVar (evalModule w confStmts) "html_static_path").isSome = true ∧
    (lookupVar (evalModule w confStmts) "extensions").isSome = true ∧
    extCount (evalModule w confStmts) = some 1 :=
  ⟨rfl, rfl, rfl, rfl, rfl, rfl⟩

/-- C3: the two near-identical configuration modules evaluate to the
same configuration bindings with equal values, under every world. -/
theorem conf_duplicate_modules_agree (w : World) :
    evalModule w conf2Stmts = evalModule w confStmts :=
  rfl

/-- C4: each of the thirteen bindings is created by exactly one
assignment, never deleted by any later statement, and its final value
is exactly the literal assigned to it. -/
theorem conf_bindings_once (w : World) :
    confKeys.Forall (onceBound w) :=
  ⟨⟨rfl, rfl, rfl⟩, ⟨rfl, rfl, rfl⟩, ⟨rfl, rfl, rfl⟩, ⟨rfl, rfl, rfl⟩,
   ⟨rfl, rfl, rfl⟩, ⟨rfl, rfl, rfl⟩, ⟨rfl, rfl, rfl⟩, ⟨rfl, rfl, rfl⟩,
   ⟨rfl, rfl, rfl⟩, ⟨rfl, rfl, rfl⟩, ⟨rfl, rfl, rfl⟩, ⟨rfl, rfl, rfl⟩,
   ⟨rfl, rfl, rfl⟩⟩

/-- C5: after evaluation, `html_logo` and `html_favicon` are each
either `None` or a path string, and `copyright` is bound to a display
string. -/
theorem conf_nullable_and_copyright (w : World) :
    boundWith (evalModule w confStmts) "html_logo" Value.isStrOrNone = true ∧
    boundWith (evalModule w confStmts) "html_favicon" Value.isStrOrNone = true ∧
    boundWith (evalModule w confStmts) "copyright" Value.isStr = true :=
  ⟨rfl, rfl, rfl⟩

/-- C6: after evaluation, `templates_path` and `html_static_path` are
ordered sequences whose every element is a path string, with the
elements in exactly the order written in the source. -/
theorem conf_path_sequences (w : World) :
    lookupVar (evalModule w confStmts) "templates_path" =
      some (.vlist [.vstr "_templates"]) ∧
    lookupVar (evalModule w confStmts) "html_static_path" =
      some (.vlist [.vstr "_static", .vstr "media"]) ∧
    boundWith (evalModule w confStmts) "templates_path" Value.isStrList = true ∧
    boundWith (evalModule w confStmts) "html_static_path" Value.isStrList = true :=
  ⟨rfl, rfl, rfl, rfl⟩

/-- C7: after evaluation, `html_css_files` is an ordered sequence of
stylesheet path strings (possibly empty) and `html_theme_options` is a
mapping (possibly empty). -/
theorem conf_css_and_theme_options (w : World) :
    boundWith (evalModule w confStmts) "html_css_files" Value.isStrList = true ∧
    boundWith (evalModule w confStmts) "html_theme_options" Value.isDict = true :=
  ⟨rfl, rfl⟩

/-- C8: evaluating the module yields exactly the concrete values
written in the source for `project`, `author`, `html_theme`,
`templates_path`, `html_static_path`, `pygments_style`,
`highlight_language` and `extensions`. -/
theorem conf_concrete_values (w : World) :
    lookupVar (evalModule w confStmts) "project" =
      some (.vstr "Multi-Stage Verification") ∧
    lookupVar (evalModule w confStmts) "author" = some (.vstr "Gus Smith") ∧
    lookupVar (evalModule w confStmts) "html_theme" = some (.vstr "furo") ∧
    lookupVar (evalModule w confStmts) "templates_path" =
      some (.vlist [.vstr "_templates"]) ∧
    lookupVar (evalModule w confStmts) "html_static_path" =
      some (.vlist [.vstr "_static", .vstr "media"]) ∧
    lookupVar (evalModule w confStmts) "pygments_style" =
      some (.vstr "colorful") ∧
    lookupVar (evalModule w confStmts) "highlight_language" =
      some (.vstr "text") ∧
    lookupVar (evalModule w confStmts) "extensions" =
      some (.vlist [.vstr "sphinx.ext.autosectionlabel"]) :=
  ⟨rfl, rfl, rfl, rfl, rfl, rfl, rfl, rfl⟩

/-- C9: every optional or nullable setting is at its empty or absent
value: `copyright` is the empty string, `html_logo` and `html_favicon`
are `None`, `html_css_files` is the empty list, and
`html_theme_options` is the empty mapping. -/
theorem conf_optional_settings_empty (w : World) :
    lookupVar (evalModule w confStmts) "copyright" = some (.vstr "") ∧
    lookupVar (evalModule w confStmts) "html_logo" = some .vnone ∧
    lookupVar (evalModule w confStmts) "html_favicon" = some .vnone ∧
    lookupVar (evalModule w confStmts) "html_css_files" =
      some (.vlist []) ∧
    lookupVar (evalModule w confStmts) "html_theme_options" =
      some (.vdict []) :=
  ⟨rfl, rfl, rfl, rfl, rfl⟩

/-- C10: evaluating the module is deterministic and input-free: no
statement reads the external world, so any two evaluations, under any
two worlds, produce identical environments. -/
theorem conf_deterministic (w1 w2 : World) :
    evalModule w1 confStmts = evalModule w2 confStmts :=
  foldExec_world_indep confStmts (by decide) w1 w2 []

end Conf
